import Mathlib

/-!
Shallow embedding of `src/postfix/src/postlogd/postlogd.c` (the postlogd
internal log-relay daemon) and proofs about its routing, startup and
lifecycle behaviour.

The own code of the daemon is tiny: a global `postlogd_stream` handle, a
per-record service routine `postlogd_service`, a self-diagnostic writer
`postlogd_fallback`, and the two initialization hooks `pre_jail_init` and
`post_jail_init`.  The surrounding server skeleton (`dgram_server_main`),
the `logwriter` append collaborator and the `msg_logger` diagnostic
collaborator are external libraries, modelled here from the spec at their
interface boundary.
-/

namespace Postlogd

/-- A byte of an opaque log record (0 is the C NUL byte). -/
abbrev Byte := Nat

/-- Syslog facility used by the fallback path (`LOG_MAIL`). -/
inductive Facility
  | mail
  deriving DecidableEq, Repr

/-- Syslog severity used by the fallback path (`LOG_INFO`). -/
inductive Severity
  | info
  deriving DecidableEq, Repr

/-- Result returned by the append operation of the AppendTarget collaborator
(`logwriter_write` returns the length on success, -1 on failure; the C
core only ever discards this value). -/
inductive WriteResult
  | ok
  | error
  deriving DecidableEq, Repr

/-- Observable effects of the daemon core: an append write to the open
log stream (with the result the collaborator returned), an emission to
the system-log FallbackSink, a self-diagnostic travelling the shared
inter-process logging channel (the postlog socket), the registration of
the diagnostic-redirect callback (`msg_logger_control`), and a fatal
process exit (`msg_fatal`). -/
inductive Effect
  | appendWrite (bytes : List Byte) (res : WriteResult)
  | fallbackEmit (fac : Facility) (sev : Severity) (bytes : List Byte)
  | sharedChannel (bytes : List Byte)
  | registerFallback
  | fatalExit (msg : String)
  deriving DecidableEq, Repr

/-- Whether an effect is an append write to the log stream. -/
def Effect.isAppend : Effect → Bool
  | Effect.appendWrite _ _ => true
  | _ => false

/-- Whether an effect is an emission to FallbackSink (syslog). -/
def Effect.isFallback : Effect → Bool
  | Effect.fallbackEmit _ _ _ => true
  | _ => false

/-- Whether an effect is a self-diagnostic on the shared channel. -/
def Effect.isShared : Effect → Bool
  | Effect.sharedChannel _ => true
  | _ => false

/-- Whether an effect is a fatal process exit. -/
def Effect.isFatal : Effect → Bool
  | Effect.fatalExit _ => true
  | _ => false

/-- Whether an effect routes a client record to a sink (either the
append target or FallbackSink). -/
def Effect.isRoute (e : Effect) : Bool :=
  e.isAppend || e.isFallback

/-- Mutable process-global state of the daemon: the logfile stream
`static VSTREAM *postlogd_stream = 0` (present or unset), and the
DiagnosticRedirectState: whether `msg_logger_control(CTL_FALLBACK_ONLY,
CTL_FALLBACK_FN(postlogd_fallback), ...)` has been issued, redirecting
the own diagnostics of the process away from the shared channel. -/
structure DaemonState where
  postlogd_stream : Option Unit
  fallbackOnly : Bool
  deriving DecidableEq, Repr

/-- State at C static-initialization time: stream null, no redirect. -/
def initState : DaemonState :=
  { postlogd_stream := none, fallbackOnly := false }

/-- C `strlen` semantics on a byte buffer: the bytes strictly before the
first NUL byte. -/
def cstr (buf : List Byte) : List Byte :=
  buf.takeWhile (fun b => b != 0)

/-- C `printf "%.*s"` semantics with precision `len`: at most `len`
bytes are taken from the buffer, stopping early at a NUL byte. -/
def printfPrec (buf : List Byte) (len : Nat) : List Byte :=
  (buf.take len).takeWhile (fun b => b != 0)

/-- The routine `postlogd_fallback(const char *buf)`: writes the
own diagnostic message of the daemon to the log stream with
`logwriter_write(postlogd_stream, buf, strlen(buf))`, discarding the
write result (`(void)` cast).  `res` is the result the collaborator
would return. -/
def postlogd_fallback (buf : List Byte) (res : WriteResult) : Effect :=
  Effect.appendWrite (cstr buf) res

/-- The routine `postlogd_service(char *buf, ssize_t len, ...)`, which
services one inbound record.  `buf` stands for exactly the `len`
delivered bytes.  If `postlogd_stream` is set, the record is appended
with `logwriter_write(postlogd_stream, buf, len)` and the result is
discarded (`(void)` cast, modelled by the environment-chosen `res`);
otherwise the record goes to syslog with
`syslog(LOG_MAIL | LOG_INFO, "%.*s", (int) len, buf)`. -/
def postlogd_service (st : DaemonState) (buf : List Byte)
    (res : WriteResult) : Effect :=
  match st.postlogd_stream with
  | some _ => Effect.appendWrite buf res
  | none =>
      Effect.fallbackEmit Facility.mail Severity.info
        (printfPrec buf buf.length)

/-- Modelled from the spec: the diagnostic-redirect collaborator
(`msg_logger`, not under src/) routes the own diagnostic
messages through the registered fallback function when the
fallback-only mode flag is set, and through the shared inter-process
channel otherwise. -/
def emitDiagnostic (st : DaemonState) (buf : List Byte)
    (res : WriteResult) : Effect :=
  if st.fallbackOnly then postlogd_fallback buf res
  else Effect.sharedChannel buf

/-- Outcome of `pre_jail_init`: the state it leaves behind, the effects
it performed, and whether it terminated the process fatally. -/
structure InitResult where
  st : DaemonState
  effects : List Effect
  fatalStop : Bool
  deriving DecidableEq, Repr

/-- The hook `pre_jail_init(char *unused_service_name, char **argv)`.
`argv0` is the first remaining positional argument (if any),
`var_maillog_file` the configured destination path, and `openOutcome`
the answer of the AppendTarget collaborator to `logwriter_open`
(`some` handle, or `none` for an open failure).  The C code issues
`msg_fatal` on a positional argument; with a non-empty path it opens
the logwriter — failure to open is fatal (the in-source comment
"Instantiate the logwriter or bust", and the collaborator `logwriter`
is not under src/, so the fatality of an open failure is modelled from
the spec: "Failure to open is fatal") — and on success registers the
diagnostic-redirect callback once via `msg_logger_control`. -/
def pre_jail_init (argv0 : Option String) (var_maillog_file : String)
    (openOutcome : Option Unit) : InitResult :=
  match argv0 with
  | some a =>
      { st := initState
        effects := [Effect.fatalExit ("unexpected command-line argument: " ++ a)]
        fatalStop := true }
  | none =>
      if var_maillog_file ≠ "" then
        match openOutcome with
        | none =>
            { st := initState
              effects := [Effect.fatalExit "logwriter_open failed"]
              fatalStop := true }
        | some h =>
            { st := { postlogd_stream := some h, fallbackOnly := true }
              effects := [Effect.registerFallback]
              fatalStop := false }
      else
        { st := initState, effects := [], fatalStop := false }

/-- Per-process lifecycle settings owned by the excluded server
skeleton: the request-count suicide limit (`var_use_limit`), the idle
timeout (`var_idle_limit`) and the watchdog timeout variable. -/
structure ServerState where
  var_use_limit : Nat
  var_idle_limit : Nat
  var_postlogd_watchdog : Nat
  deriving DecidableEq, Repr

/-- The hook `post_jail_init`: sets `var_use_limit = 0` and touches
nothing else. -/
def post_jail_init (s : ServerState) : ServerState :=
  { s with var_use_limit := 0 }

/-- Default of the `postlogd_watchdog_timeout` parameter: 10 time
units, as documented in the parameter summary of the source file itself and
declared in the time table of `main`. -/
def DEF_POSTLOGD_WATCHDOG : Nat := 10

/-- Modelled from the spec: the excluded skeleton reads each time-table
parameter from configuration, using the default of the table when the
parameter is unset. -/
def readTimeParam (d : Nat) (configured : Option Nat) : Nat :=
  configured.getD d

/-- The value of `var_postlogd_watchdog` after the time table of `main` is
processed: the configured value, or the default 10. -/
def postlogdWatchdogTimeout (configured : Option Nat) : Nat :=
  readTimeParam DEF_POSTLOGD_WATCHDOG configured

/-- Modelled from the spec: the skeleton watchdog passed via
`CA_MAIL_SERVER_WATCHDOG(&var_postlogd_watchdog)` kills the process
exactly when the processing time of a request exceeds the timeout. -/
def watchdogTerminates (timeout elapsed : Nat) : Bool :=
  decide (timeout < elapsed)

/-- One event delivered to the running daemon by its environment:
either an inbound client record (with the result the append
collaborator would return for it), or a self-diagnostic message
emitted by the own code of the process. -/
inductive Event
  | request (buf : List Byte) (res : WriteResult)
  | diagnostic (buf : List Byte) (res : WriteResult)
  deriving DecidableEq, Repr

/-- Modelled from the spec: the excluded skeleton dispatches one event
at a time to the daemon core.  The handlers of the core never modify the
process-global state (`postlogd_stream` and the redirect flag are
assigned only in `pre_jail_init`). -/
def handleEvent (st : DaemonState) (e : Event) : DaemonState × Effect :=
  match e with
  | Event.request buf res => (st, postlogd_service st buf res)
  | Event.diagnostic buf res => (st, emitDiagnostic st buf res)

/-- Modelled from the spec: the sequential, one-at-a-time service loop,
threading the daemon state through the events and collecting effects. -/
def runEvents (st : DaemonState) : List Event → DaemonState × List Effect
  | [] => (st, [])
  | e :: es =>
      let p := handleEvent st e
      let q := runEvents p.1 es
      (q.1, p.2 :: q.2)

/-- Modelled from the spec: a whole process run.  `pre_jail_init` runs
first; if it terminated fatally, no request is ever accepted, otherwise
the service loop processes the events. -/
def runProcess (argv0 : Option String) (var_maillog_file : String)
    (openOutcome : Option Unit) (events : List Event) : List Effect :=
  let r := pre_jail_init argv0 var_maillog_file openOutcome
  if r.fatalStop then r.effects
  else r.effects ++ (runEvents r.st events).2

/-! Helper lemmas shared by the claim theorems. -/

/-- Servicing an event never touches the process-global state. -/
theorem handleEvent_fst (st : DaemonState) (e : Event) :
    (handleEvent st e).1 = st := by
  cases e <;> rfl

/-- The service loop never touches the process-global state. -/
theorem runEvents_fst (st : DaemonState) (es : List Event) :
    (runEvents st es).1 = st := by
  induction es generalizing st with
  | nil => rfl
  | cons e es ih => simp [runEvents, handleEvent_fst, ih]

/-- The effects of a run are the per-event effects, in order, all taken
at the initial state. -/
theorem runEvents_snd (st : DaemonState) (es : List Event) :
    (runEvents st es).2 = es.map (fun e => (handleEvent st e).2) := by
  induction es generalizing st with
  | nil => rfl
  | cons e es ih => simp [runEvents, handleEvent_fst, ih]

/-- On a NUL-free buffer, `strlen` covers the whole buffer. -/
theorem cstr_eq_self (buf : List Byte) (h : (0 : Nat) ∉ buf) :
    cstr buf = buf := by
  induction buf with
  | nil => rfl
  | cons b bs ih =>
      have hb : b ≠ 0 := by
        intro hb0
        exact h (hb0 ▸ List.mem_cons_self b bs)
      have hbs : (0 : Nat) ∉ bs := fun hm => h (List.mem_cons_of_mem _ hm)
      have hb' : (b != 0) = true := by simpa using hb
      show List.takeWhile (fun b => b != 0) (b :: bs) = b :: bs
      rw [List.takeWhile_cons, if_pos hb']
      exact congrArg (List.cons b) (ih hbs)

/-- The bytes of a buffer before its first NUL byte are exactly the
NUL-free part in front of it. -/
theorem cstr_append_nul (pre post : List Byte) (h : (0 : Nat) ∉ pre) :
    cstr (pre ++ 0 :: post) = pre := by
  induction pre with
  | nil => rfl
  | cons b bs ih =>
      have hb : b ≠ 0 := by
        intro hb0
        exact h (hb0 ▸ List.mem_cons_self b bs)
      have hbs : (0 : Nat) ∉ bs := fun hm => h (List.mem_cons_of_mem _ hm)
      have hb' : (b != 0) = true := by simpa using hb
      show List.takeWhile (fun b => b != 0) (b :: (bs ++ 0 :: post)) = b :: bs
      rw [List.takeWhile_cons, if_pos hb']
      exact congrArg (List.cons b) (ih hbs)

/-- With precision equal to the buffer length, `%.*s` degenerates to
`strlen` truncation. -/
theorem printfPrec_self (buf : List Byte) :
    printfPrec buf buf.length = cstr buf := by
  simp [printfPrec, cstr]

/-- Reachability invariant of startup: whenever `pre_jail_init` has set
the diagnostic-redirect flag, it has also set the stream handle. -/
theorem pre_jail_init_fallback_imp_stream (argv0 : Option String)
    (maillog : String) (openOut : Option Unit) :
    (pre_jail_init argv0 maillog openOut).st.fallbackOnly = true →
    (pre_jail_init argv0 maillog openOut).st.postlogd_stream.isSome = true := by
  intro h
  cases argv0 with
  | some a => simp [pre_jail_init, initState] at h
  | none =>
      by_cases hm : maillog ≠ ""
      · cases openOut with
        | none => simp [pre_jail_init, hm, initState] at h
        | some u => simp [pre_jail_init, hm]
      · simp [pre_jail_init, hm, initState] at h

/-! Claim theorems. -/

/-- C1 (counterexample): the claim that a failed append write is
surfaced as a process-fatal condition is false on the code.  In a run
with an open log stream, a record whose append write fails produces
only the (discarded-result) append effect, no fatal exit occurs
anywhere in the run, and a later record is still appended normally. -/
theorem C1_counterexample :
    runProcess none "maillog" (some ())
        [Event.request [65] WriteResult.error, Event.request [66] WriteResult.ok]
      = [Effect.registerFallback,
         Effect.appendWrite [65] WriteResult.error,
         Effect.appendWrite [66] WriteResult.ok] ∧
    List.any (runProcess none "maillog" (some ())
        [Event.request [65] WriteResult.error, Event.request [66] WriteResult.ok])
      Effect.isFatal = false := by
  decide

/-- C1 (amended): with the log stream open, a failed append write is
not retried and is never followed by a fallback to FallbackSink, for
that record or any later one (the routing state never changes mid-run);
however the failure is not surfaced: the service routine discards the
append result (the `(void)` cast) and emits no fatal condition, so the
record is silently dropped. -/
theorem C1_append_failure_ignored (st : DaemonState) (events : List Event)
    (h : st.postlogd_stream = some ()) :
    (runEvents st events).1 = st ∧
    (∀ eff ∈ (runEvents st events).2,
        eff.isFallback = false ∧ eff.isFatal = false) ∧
    (∀ buf, postlogd_service st buf WriteResult.error
        = Effect.appendWrite buf WriteResult.error) := by
  refine ⟨runEvents_fst st events, ?_, ?_⟩
  · intro eff hm
    rw [runEvents_snd] at hm
    obtain ⟨e, he, rfl⟩ := List.mem_map.mp hm
    cases e with
    | request buf res =>
        simp [handleEvent, postlogd_service, h, Effect.isFallback,
          Effect.isFatal]
    | diagnostic buf res =>
        by_cases hf : st.fallbackOnly <;>
          simp [handleEvent, emitDiagnostic, hf, postlogd_fallback,
            Effect.isFallback, Effect.isFatal]
  · intro buf
    simp [postlogd_service, h]

/-- C1 (witness). -/
theorem C1_append_failure_ignored_witness :
    ({ postlogd_stream := some (), fallbackOnly := true } :
        DaemonState).postlogd_stream = some () ∧
    (runEvents { postlogd_stream := some (), fallbackOnly := true }
        [Event.request [65] WriteResult.error]).1
      = { postlogd_stream := some (), fallbackOnly := true } ∧
    postlogd_service { postlogd_stream := some (), fallbackOnly := true }
        [65] WriteResult.error
      = Effect.appendWrite [65] WriteResult.error :=
  ⟨rfl,
   (C1_append_failure_ignored
      { postlogd_stream := some (), fallbackOnly := true }
      [Event.request [65] WriteResult.error] rfl).1,
   (C1_append_failure_ignored
      { postlogd_stream := some (), fallbackOnly := true }
      [] rfl).2.2 [65]⟩

/-- C2: each inbound record is routed to exactly one sink.  When the
log stream is open, the record is appended byte-for-byte (the whole
`len`-byte buffer) and FallbackSink is not called; in every case the
single emitted effect is an append exactly when it is not a fallback
emission, so no record reaches both sinks. -/
theorem C2_single_sink (st : DaemonState) (buf : List Byte)
    (res : WriteResult) :
    (st.postlogd_stream = some () →
        postlogd_service st buf res = Effect.appendWrite buf res ∧
        (postlogd_service st buf res).isFallback = false) ∧
    ((postlogd_service st buf res).isAppend = true ↔
        (postlogd_service st buf res).isFallback = false) := by
  constructor
  · intro hc
    constructor <;>
      simp [postlogd_service, hc, Effect.isAppend, Effect.isFallback]
  · cases hs : st.postlogd_stream <;>
      simp [postlogd_service, hs, Effect.isAppend, Effect.isFallback]

/-- C2 (witness). -/
theorem C2_single_sink_witness :
    postlogd_service { postlogd_stream := some (), fallbackOnly := true }
        [65, 0, 66] WriteResult.ok
      = Effect.appendWrite [65, 0, 66] WriteResult.ok ∧
    ((postlogd_service { postlogd_stream := some (), fallbackOnly := true }
        [65, 0, 66] WriteResult.ok).isAppend = true ↔
     (postlogd_service { postlogd_stream := some (), fallbackOnly := true }
        [65, 0, 66] WriteResult.ok).isFallback = false) :=
  ⟨((C2_single_sink { postlogd_stream := some (), fallbackOnly := true }
      [65, 0, 66] WriteResult.ok).1 rfl).1,
   (C2_single_sink { postlogd_stream := some (), fallbackOnly := true }
      [65, 0, 66] WriteResult.ok).2⟩

/-- C3 (counterexample): with no log stream, a record containing an
embedded NUL byte is not forwarded to FallbackSink byte-for-byte: the
`%.*s` conversion stops at the NUL, so only the bytes before it are
emitted. -/
theorem C3_counterexample :
    postlogd_service initState [65, 0, 66] WriteResult.ok
      ≠ Effect.fallbackEmit Facility.mail Severity.info [65, 0, 66] ∧
    postlogd_service initState [65, 0, 66] WriteResult.ok
      = Effect.fallbackEmit Facility.mail Severity.info [65] := by
  decide

/-- C3 (amended): with the log stream unset, every record is forwarded
to FallbackSink tagged with the mail facility and info severity, but
the forwarded bytes are the record truncated at its first NUL byte (the
`%.*s` conversion); records without an embedded NUL are forwarded
unmodified, byte-for-byte. -/
theorem C3_fallback_truncates_at_nul (st : DaemonState) (buf : List Byte)
    (res : WriteResult) (h : st.postlogd_stream = none) :
    postlogd_service st buf res
      = Effect.fallbackEmit Facility.mail Severity.info (cstr buf) ∧
    ((0 : Nat) ∉ buf →
      postlogd_service st buf res
        = Effect.fallbackEmit Facility.mail Severity.info buf) := by
  have hp : printfPrec buf buf.length = cstr buf := printfPrec_self buf
  constructor
  · simp [postlogd_service, h, hp]
  · intro h0
    simp [postlogd_service, h, hp, cstr_eq_self buf h0]

/-- C3 (witness). -/
theorem C3_fallback_truncates_at_nul_witness :
    initState.postlogd_stream = none ∧
    postlogd_service initState [72, 73] WriteResult.ok
      = Effect.fallbackEmit Facility.mail Severity.info (cstr [72, 73]) ∧
    postlogd_service initState [72, 73] WriteResult.ok
      = Effect.fallbackEmit Facility.mail Severity.info [72, 73] :=
  ⟨rfl,
   (C3_fallback_truncates_at_nul initState [72, 73] WriteResult.ok rfl).1,
   (C3_fallback_truncates_at_nul initState [72, 73] WriteResult.ok rfl).2
     (by decide)⟩

/-- C4: an unexpected positional argument, or a non-empty destination
path whose open fails, makes initialization fatal: the whole process
run consists of a fatal exit and no record is ever routed to either
sink. -/
theorem C4_fatal_startup (argv0 : Option String) (maillog : String)
    (openOut : Option Unit) (events : List Event)
    (h : argv0.isSome = true ∨ (maillog ≠ "" ∧ openOut = none)) :
    (pre_jail_init argv0 maillog openOut).fatalStop = true ∧
    List.any (runProcess argv0 maillog openOut events) Effect.isFatal = true ∧
    List.any (runProcess argv0 maillog openOut events) Effect.isRoute = false := by
  rcases h with h | ⟨hm, ho⟩
  · obtain ⟨a, ha⟩ := Option.isSome_iff_exists.mp h
    subst ha
    simp [pre_jail_init, runProcess, Effect.isFatal, Effect.isRoute,
      Effect.isAppend, Effect.isFallback]
  · subst ho
    cases argv0 with
    | some a =>
        simp [pre_jail_init, runProcess, Effect.isFatal, Effect.isRoute,
          Effect.isAppend, Effect.isFallback]
    | none =>
        simp [pre_jail_init, runProcess, hm, Effect.isFatal, Effect.isRoute,
          Effect.isAppend, Effect.isFallback]

/-- C4 (witness). -/
theorem C4_fatal_startup_witness :
    ((some "x" : Option String).isSome = true ∨
      (("" : String) ≠ "" ∧ (none : Option Unit) = none)) ∧
    ((pre_jail_init (some "x") "" none).fatalStop = true ∧
     List.any (runProcess (some "x") "" none
        [Event.request [65] WriteResult.ok]) Effect.isFatal = true ∧
     List.any (runProcess (some "x") "" none
        [Event.request [65] WriteResult.ok]) Effect.isRoute = false) :=
  ⟨Or.inl rfl,
   C4_fatal_startup (some "x") "" none
     [Event.request [65] WriteResult.ok] (Or.inl rfl)⟩

/-- C5: with an empty destination path, initialization leaves the
stream handle unset, does not register the diagnostic-redirect
callback, and the redirect state stays at the shared channel for the
whole run. -/
theorem C5_empty_path_no_redirect (openOut : Option Unit)
    (events : List Event) :
    (pre_jail_init none "" openOut).st.postlogd_stream = none ∧
    (pre_jail_init none "" openOut).st.fallbackOnly = false ∧
    List.count Effect.registerFallback
      (pre_jail_init none "" openOut).effects = 0 ∧
    (runEvents (pre_jail_init none "" openOut).st events).1.fallbackOnly
      = false := by
  have hp : pre_jail_init none "" openOut
      = { st := initState, effects := [], fatalStop := false } := by
    simp [pre_jail_init]
  rw [hp, runEvents_fst]
  decide

/-- C6: with a non-empty destination path and a successful open,
initialization switches the redirect state to direct write and
registers the callback exactly once; the state is never reverted over
any run, self-diagnostics are then written directly through the stream
handle (as an append of the NUL-terminated message), and no effect of
the run ever traverses the shared channel. -/
theorem C6_redirect_permanent (maillog : String) (events : List Event)
    (h : maillog ≠ "") :
    (pre_jail_init none maillog (some ())).st.fallbackOnly = true ∧
    List.count Effect.registerFallback
      (pre_jail_init none maillog (some ())).effects = 1 ∧
    (runEvents (pre_jail_init none maillog (some ())).st events).1
      = (pre_jail_init none maillog (some ())).st ∧
    (∀ buf res, emitDiagnostic (pre_jail_init none maillog (some ())).st buf res
        = Effect.appendWrite (cstr buf) res) ∧
    (∀ eff ∈ (runEvents (pre_jail_init none maillog (some ())).st events).2,
        eff.isShared = false) := by
  have hp : pre_jail_init none maillog (some ())
      = { st := { postlogd_stream := some (), fallbackOnly := true },
          effects := [Effect.registerFallback], fatalStop := false } := by
    simp [pre_jail_init, h]
  rw [hp]
  refine ⟨rfl, by decide, runEvents_fst _ _, ?_, ?_⟩
  · intro buf res
    simp [emitDiagnostic, postlogd_fallback]
  · intro eff hm
    rw [runEvents_snd] at hm
    obtain ⟨e, he, rfl⟩ := List.mem_map.mp hm
    cases e with
    | request buf res =>
        simp [handleEvent, postlogd_service, Effect.isShared]
    | diagnostic buf res =>
        simp [handleEvent, emitDiagnostic, postlogd_fallback, Effect.isShared]

/-- C6 (witness). -/
theorem C6_redirect_permanent_witness :
    (("log" : String) ≠ "") ∧
    (pre_jail_init none "log" (some ())).st.fallbackOnly = true ∧
    List.count Effect.registerFallback
      (pre_jail_init none "log" (some ())).effects = 1 ∧
    (runEvents (pre_jail_init none "log" (some ())).st
        [Event.diagnostic [68] WriteResult.ok]).1
      = (pre_jail_init none "log" (some ())).st ∧
    emitDiagnostic (pre_jail_init none "log" (some ())).st [68] WriteResult.ok
      = Effect.appendWrite (cstr [68]) WriteResult.ok ∧
    Effect.isShared (Effect.appendWrite [68] WriteResult.ok) = false :=
  ⟨by decide,
   (C6_redirect_permanent "log" [Event.diagnostic [68] WriteResult.ok]
      (by decide)).1,
   (C6_redirect_permanent "log" [Event.diagnostic [68] WriteResult.ok]
      (by decide)).2.1,
   (C6_redirect_permanent "log" [Event.diagnostic [68] WriteResult.ok]
      (by decide)).2.2.1,
   (C6_redirect_permanent "log" [Event.diagnostic [68] WriteResult.ok]
      (by decide)).2.2.2.1 [68] WriteResult.ok,
   (C6_redirect_permanent "log" [Event.diagnostic [68] WriteResult.ok]
      (by decide)).2.2.2.2 (Effect.appendWrite [68] WriteResult.ok)
     (by decide)⟩

/-- C7: the post-jail hook zeroes the request-count suicide limit and
modifies no other lifecycle setting: the idle limit and the watchdog
variable are left unchanged. -/
theorem C7_use_limit_zero (s : ServerState) :
    (post_jail_init s).var_use_limit = 0 ∧
    (post_jail_init s).var_idle_limit = s.var_idle_limit ∧
    (post_jail_init s).var_postlogd_watchdog = s.var_postlogd_watchdog :=
  ⟨rfl, rfl, rfl⟩

/-- C8: the watchdog timeout defaults to 10 time units when not
configured, takes the configured value otherwise, and the skeleton
watchdog it is passed to terminates the process exactly on requests
whose processing exceeds it. -/
theorem C8_watchdog_bound (configured : Option Nat) (t elapsed : Nat) :
    postlogdWatchdogTimeout none = 10 ∧
    postlogdWatchdogTimeout (some t) = t ∧
    (elapsed ≤ postlogdWatchdogTimeout configured →
        watchdogTerminates (postlogdWatchdogTimeout configured) elapsed
          = false) ∧
    (postlogdWatchdogTimeout configured < elapsed →
        watchdogTerminates (postlogdWatchdogTimeout configured) elapsed
          = true) := by
  refine ⟨rfl, rfl, ?_, ?_⟩
  · intro h
    simp only [watchdogTerminates, decide_eq_false_iff_not]
    omega
  · intro h
    simp only [watchdogTerminates, decide_eq_true_eq]
    omega

/-- C8 (witness). -/
theorem C8_watchdog_bound_witness :
    postlogdWatchdogTimeout none = 10 ∧
    postlogdWatchdogTimeout (some 30) = 30 ∧
    watchdogTerminates (postlogdWatchdogTimeout (some 30)) 7 = false ∧
    watchdogTerminates (postlogdWatchdogTimeout none) 11 = true :=
  ⟨(C8_watchdog_bound (some 30) 30 7).1,
   (C8_watchdog_bound (some 30) 30 7).2.1,
   (C8_watchdog_bound (some 30) 30 7).2.2.1 (by decide),
   (C8_watchdog_bound none 30 11).2.2.2 (by decide)⟩

/-- C9: the self-diagnostic fallback writer measures its buffer with
`strlen`, so it appends exactly the bytes before the first NUL and
drops everything after an embedded NUL, while a client record with the
same bytes is appended in full through the explicit-length service
path. -/
theorem C9_fallback_strlen (st : DaemonState) (pre post : List Byte)
    (res : WriteResult) (h0 : (0 : Nat) ∉ pre)
    (h : st.postlogd_stream = some ()) :
    postlogd_fallback (pre ++ 0 :: post) res = Effect.appendWrite pre res ∧
    postlogd_fallback pre res = Effect.appendWrite pre res ∧
    postlogd_service st (pre ++ 0 :: post) res
      = Effect.appendWrite (pre ++ 0 :: post) res := by
  refine ⟨?_, ?_, ?_⟩
  · show Effect.appendWrite (cstr (pre ++ 0 :: post)) res = _
    rw [cstr_append_nul pre post h0]
  · show Effect.appendWrite (cstr pre) res = _
    rw [cstr_eq_self pre h0]
  · simp [postlogd_service, h]

/-- C9 (witness). -/
theorem C9_fallback_strlen_witness :
    ((0 : Nat) ∉ ([72, 73] : List Byte)) ∧
    postlogd_fallback ([72, 73] ++ 0 :: [74]) WriteResult.ok
      = Effect.appendWrite [72, 73] WriteResult.ok ∧
    postlogd_fallback [72, 73] WriteResult.ok
      = Effect.appendWrite [72, 73] WriteResult.ok ∧
    postlogd_service { postlogd_stream := some (), fallbackOnly := true }
        ([72, 73] ++ 0 :: [74]) WriteResult.ok
      = Effect.appendWrite ([72, 73] ++ 0 :: [74]) WriteResult.ok :=
  ⟨by decide,
   (C9_fallback_strlen { postlogd_stream := some (), fallbackOnly := true }
      [72, 73] [74] WriteResult.ok (by decide) rfl).1,
   (C9_fallback_strlen { postlogd_stream := some (), fallbackOnly := true }
      [72, 73] [74] WriteResult.ok (by decide) rfl).2.1,
   (C9_fallback_strlen { postlogd_stream := some (), fallbackOnly := true }
      [72, 73] [74] WriteResult.ok (by decide) rfl).2.2⟩

/-- C10: whenever the diagnostic-redirect flag is set in the state
reached by any startup outcome followed by any run of the service loop,
the stream handle is set, so the fallback writer never operates on the
unset (null) handle. -/
theorem C10_fallback_stream_open (argv0 : Option String) (maillog : String)
    (openOut : Option Unit) (events : List Event)
    (h : ((runEvents (pre_jail_init argv0 maillog openOut).st events).1).fallbackOnly
        = true) :
    ((runEvents (pre_jail_init argv0 maillog openOut).st
        events).1).postlogd_stream.isSome = true := by
  rw [runEvents_fst] at h ⊢
  exact pre_jail_init_fallback_imp_stream argv0 maillog openOut h

/-- C10 (witness). -/
theorem C10_fallback_stream_open_witness :
    ((runEvents (pre_jail_init none "log" (some ())).st []).1).fallbackOnly
      = true ∧
    ((runEvents (pre_jail_init none "log" (some ())).st
        []).1).postlogd_stream.isSome = true :=
  ⟨by decide,
   C10_fallback_stream_open none "log" (some ()) [] (by decide)⟩

end Postlogd
